import Mathlib

/-!
Verification of the appointment scheduling agent (`appointment_agent.py`).

Shallow embedding conventions:
* Instants (`datetime` values) are modelled as `Int` minutes on a global
  timeline; a calendar date is an `Int` day index and a time-of-day an `Int`
  minute-of-day, combined as `day * 1440 + minute`.  All source comparisons
  on datetimes are exact order comparisons, which the `Int` order reflects.
* Database fields that may be NULL, absent, or unparseable are `Option`
  valued: `none` stands for "missing or not parseable", so the source's
  parse helpers (`_parse_dt`) act as the identity on these models.
* Database rows are Lean structures; a query result is a `List` of rows.
* Side effects (SQL writes, notification requests) are reified as an
  explicit `Effect` list returned by each handler, in emission order.
  Notification message bodies are presentation-only and elided; recipient,
  title, type tag, related id and scheduled-at time are kept.
* Storage failures the source swallows with `try/except` are modelled by
  explicit boolean parameters at the failure points the claims exercise
  (the prediction query, the NO_SHOW status update); schema drift
  (optional tables/columns) by boolean schema flags.
* Python string operations used by the source (strip / upper /
  single-character replace / truncate) are charwise and modelled over
  `String.data`.
-/

/-- Business-rule constant: minutes after scheduled start before a delay
alert (source `GRACE_MIN_DELAY = 10`). -/
def GRACE_MIN_DELAY : Int := 10

/-- Business-rule constant: minutes after scheduled start before a no-show
transition (source `GRACE_MIN_NO_SHOW = 45`). -/
def GRACE_MIN_NO_SHOW : Int := 45

/-- Static fallback duration table (source `DEFAULT_DURATIONS_MIN`), with
the `.get(proc, 30)` default for unlisted types. -/
def DEFAULT_DURATIONS_MIN (proc : String) : Int :=
  if proc = "CONSULTATION" then 20
  else if proc = "CHECKUP" then 20
  else if proc = "SCALING" then 45
  else if proc = "FILLING" then 60
  else if proc = "EXTRACTION" then 45
  else if proc = "ROOT_CANAL" then 90
  else if proc = "IMPLANT" then 120
  else 30

/-- Python `str.strip()` restricted to the space character (charwise). -/
def pyStrip (s : List Char) : List Char :=
  ((s.dropWhile (fun c => c = ' ')).reverse.dropWhile (fun c => c = ' ')).reverse

/-- Python `str.upper()` (charwise, ASCII as used by the source data). -/
def pyUpper (s : List Char) : List Char := s.map Char.toUpper

/-- Python `str.replace(old, new)` for single-character arguments. -/
def pyReplaceChar (old new : Char) (s : List Char) : List Char :=
  s.map (fun c => if c = old then new else c)

/-- Source `_norm_proc_type`: strip, upper-case, replace `-` and space with
`_`, default empty to `CONSULTATION`, truncate to 50 characters.  The
`s or ""` coercion of a missing value is the `""` case. -/
def norm_proc_type (s : String) : String :=
  let t := pyReplaceChar ' ' '_' (pyReplaceChar '-' '_' (pyUpper (pyStrip s.data)))
  let t2 := if t = [] then "CONSULTATION".data else t
  ⟨t2.take 50⟩

/-- Source `_combine_date_time`: `None` if either part is missing, else the
zoned datetime for that date and time-of-day. -/
def combine_date_time (d t : Option Int) : Option Int :=
  match d, t with
  | some dd, some tt => some (dd * 1440 + tt)
  | _, _ => none

/-- Source `_overlaps`: half-open interval intersection test. -/
def overlaps (a_start a_end b_start b_end : Int) : Bool :=
  decide (a_start < b_end) && decide (b_start < a_end)

/-- One row of the `appointments` table as the handlers read it
(`SELECT *`).  `scheduled_date` is a day index, `scheduled_time` and
`scheduled_end_time` minute-of-day values, `appointment_datetime` a full
instant; `none` models NULL/absent/unparseable. -/
structure ApptRow where
  id : Int
  patient_id : Option Int
  doctor_id : Option Int
  type : Option String
  status : String
  operatory_id : Option Int
  operatory_room_id : Option Int
  linked_case_id : Option Int
  scheduled_date : Option Int
  scheduled_time : Option Int
  scheduled_end_time : Option Int
  appointment_datetime : Option Int
  predicted_duration_min : Option Int
deriving Repr, DecidableEq

/-- Source `_fetch_appt_datetime`: prefer the combined timestamp, else
combine date and start time. -/
def fetch_appt_datetime (r : ApptRow) : Option Int :=
  match r.appointment_datetime with
  | some adt => some adt
  | none => combine_date_time r.scheduled_date r.scheduled_time

/-- Source `_fetch_appt_end_datetime`: `None` without a start; else the
explicit end time (date + `scheduled_end_time`) if derivable, else
start + duration. -/
def fetch_appt_end_datetime (r : ApptRow) (start_dt : Option Int) (duration_min : Int) :
    Option Int :=
  match start_dt with
  | none => none
  | some s =>
    match combine_date_time r.scheduled_date r.scheduled_end_time with
    | some e => some e
    | none => some (s + duration_min)

/-- One row of the `visit_procedures` table: the code column (the live one
of `procedure_code`/`procedure_type`) and the nullable actual duration. -/
structure VPRow where
  id : Int
  visit_id : Int
  procedure_code : String
  actual_duration_min : Option Int
deriving Repr, DecidableEq

/-- The SQL filter of the prediction query: rows of the normalized type with
non-NULL positive `actual_duration_min` (the subsequent Python `if v:`
re-check excludes nothing further). -/
def positive_samples (vps : List VPRow) (proc : String) : List Int :=
  (vps.filter (fun p => p.procedure_code == proc && decide (0 < p.actual_duration_min.getD 0))).map
    (fun p => p.actual_duration_min.getD 0)

/-- The median selection of `_predict_duration_minutes`: sort ascending
(Python `vals.sort()`), take the middle value, or for an even count the
integer-floor average of the two middle values. -/
def median_of (vals : List Int) : Int :=
  let sorted := vals.insertionSort (fun a b => a ≤ b)
  let mid := sorted.length / 2
  if sorted.length % 2 = 1 then sorted.getD mid 0
  else (sorted.getD (mid - 1) 0 + sorted.getD mid 0) / 2

/-- Source `_predict_duration_minutes`.  `has_vp_table` models the
`_table_exists` probe, `query_fails` a storage failure anywhere inside the
`try` block (swallowed, falling through to the default), `vps` the table
contents.  At least five positive samples of the normalized type give the
clamped median, else the static default. -/
def predict_duration_minutes (has_vp_table query_fails : Bool) (vps : List VPRow)
    (procedure_type : String) : Int :=
  let proc := norm_proc_type procedure_type
  if query_fails then DEFAULT_DURATIONS_MIN proc
  else if !has_vp_table then DEFAULT_DURATIONS_MIN proc
  else
    let vals := positive_samples vps proc
    if 5 ≤ vals.length then max 10 (min (median_of vals) 240)
    else DEFAULT_DURATIONS_MIN proc

example : norm_proc_type " root canal " = "ROOT_CANAL" := by decide
example : norm_proc_type "" = "CONSULTATION" := by decide
example : median_of [20, 25, 20, 30, 25] = 25 := by decide
example : overlaps 600 630 630 660 = false := by decide
example : overlaps 600 631 630 660 = true := by decide

/-- Terminal appointment statuses, as listed in the SQL
`status NOT IN ('CANCELLED','COMPLETED','NO_SHOW')` filters and the sweep's
skip check. -/
def TERMINAL_STATUSES : List String := ["CANCELLED", "COMPLETED", "NO_SHOW"]

/-- One conflict entry as `_detect_conflicts` builds it: the dict
`{"type": kind, "with_appointment_id": id, "at": start, "status": status}`
(`at_dt` is the source's `"at"` key, a Lean keyword). -/
structure Conflict where
  kind : String
  with_appointment_id : Int
  at_dt : Int
  status : String
deriving Repr, DecidableEq

/-- The effective duration `_detect_conflicts` feeds to
`_fetch_appt_end_datetime`: `int(row.get("predicted_duration_min") or 0)`
then `dur or 30` — NULL or zero fall to 30. -/
def row_effective_duration (r : ApptRow) : Int :=
  let dur := r.predicted_duration_min.getD 0
  if dur = 0 then 30 else dur

/-- The shared per-row loop body of both scans in `_detect_conflicts`:
derive the row's start (skip if underivable) and end, keep the row when its
interval overlaps the candidate interval. -/
def scan_rows (rows : List ApptRow) (kind : String) (start_dt end_dt : Int) : List Conflict :=
  rows.filterMap (fun r =>
    match fetch_appt_datetime r with
    | none => none
    | some s =>
      match fetch_appt_end_datetime r (some s) (row_effective_duration r) with
      | none => none
      | some e =>
        if overlaps start_dt end_dt s e then some ⟨kind, r.id, s, r.status⟩ else none)

/-- Source `_detect_conflicts`.  `has_operatory` models the
`_column_exists(cur, "appointments", "operatory_room_id")` probe and `rows`
the `appointments` table.  The first SQL scan keeps other non-terminal rows
of the same doctor; when the room column exists and a (truthy, i.e.
non-zero) room id was passed, a second scan keeps other non-terminal rows
sharing that room, tagged `OPERATORY`. -/
def detect_conflicts (has_operatory : Bool) (rows : List ApptRow) (appt_id doctor_id : Int)
    (start_dt end_dt : Int) (operatory_room_id : Option Int) : List Conflict :=
  let docRows := rows.filter (fun r =>
    r.doctor_id == some doctor_id && r.id != appt_id && !(TERMINAL_STATUSES.contains r.status))
  let conflicts := scan_rows docRows "DOCTOR" start_dt end_dt
  if has_operatory && decide (operatory_room_id.getD 0 ≠ 0) then
    let roomRows := rows.filter (fun r =>
      r.operatory_room_id == operatory_room_id && r.id != appt_id &&
        !(TERMINAL_STATUSES.contains r.status))
    conflicts ++ scan_rows roomRows "OPERATORY" start_dt end_dt
  else conflicts

/-- Observable side effects of the handlers, in emission order.  SQL writes
come first (inside the cursor scope), notification requests after it. -/
inductive Effect where
  | updateAppt (appt_id : Int) (predicted : Option Int) (end_time_of_day : Option Int)
  | statusWrite (appt_id : Int) (status : String)
  | auditLog (appt_id : Int) (action : String)
  | insertVisit (appt_id patient_id doctor_id : Int) (linked_case_id : Option Int) (status : String)
  | insertVP (visit_id : Int) (procedure_code : String) (qty : Int) (predicted : Int)
  | notif (user_id : Int) (title : String) (ntype : String) (related_id : Int)
      (scheduled_at : Option Int)
deriving Repr, DecidableEq

/-- Source `_write_audit`: appends one row (action truncated to 50 chars)
when the audit table exists, else a silent no-op. -/
def write_audit (has_audit_table : Bool) (appt_id : Int) (action : String) : List Effect :=
  if has_audit_table then [Effect.auditLog appt_id ⟨action.data.take 50⟩] else []

/-- Source `_update_predicted_fields`: no-op without a start; else update
whichever of `predicted_duration_min` and `scheduled_end_time` the schema
has (the end time persisted as a time-of-day string, here minute-of-day). -/
def update_predicted_fields (has_pred has_end : Bool) (appt_id : Int) (duration_min : Int)
    (start_dt : Option Int) : List Effect :=
  match start_dt with
  | none => []
  | some s =>
    if !has_pred && !has_end then []
    else [Effect.updateAppt appt_id (if has_pred then some duration_min else none)
      (if has_end then some ((s + duration_min) % 1440) else none)]

/-- Per-row body of `appointment_monitor_sweep`'s loop.  Returns the emitted
effects and the row as it stands in the store afterwards.  `update_fails`
models a raise inside the `try` wrapping the NO_SHOW `UPDATE` and its audit
write (swallowed by `except: pass`); notifications are emitted regardless.
The sweep reads `patient_id`/`doctor_id` with the `or 0` default and treats
zero as unknown. -/
def sweep_row (now : Int) (has_audit_table update_fails : Bool) (appt : ApptRow) :
    List Effect × ApptRow :=
  let status : String := ⟨pyUpper appt.status.data⟩
  if TERMINAL_STATUSES.contains status then ([], appt)
  else
    let appt_id := appt.id
    let patient_id := appt.patient_id.getD 0
    let doctor_id := appt.doctor_id.getD 0
    match fetch_appt_datetime appt with
    | none => ([], appt)
    | some start_dt =>
      if now > start_dt + GRACE_MIN_NO_SHOW then
        let writes :=
          if update_fails then []
          else Effect.statusWrite appt_id "NO_SHOW" :: write_audit has_audit_table appt_id "NO_SHOW"
        let row2 := if update_fails then appt else { appt with status := "NO_SHOW" }
        let notifs :=
          (if patient_id ≠ 0 then
            [Effect.notif patient_id "Missed Appointment" "APPOINTMENT_NO_SHOW" appt_id none]
          else []) ++
          (if doctor_id ≠ 0 then
            [Effect.notif doctor_id "No-show Alert" "APPOINTMENT_NO_SHOW" appt_id none]
          else [])
        (writes ++ notifs, row2)
      else if now > start_dt + GRACE_MIN_DELAY then
        ((if doctor_id ≠ 0 then
          [Effect.notif doctor_id "Appointment Running Late" "APPOINTMENT_DELAY" appt_id none]
        else []), appt)
      else ([], appt)

/-- Source `appointment_monitor_sweep` over the fetched rows (the
`scheduled_date = today` query result): the loop emits each row's effects in
order; the second component is the store's row list afterwards. -/
def appointment_monitor_sweep (now : Int) (has_audit_table update_fails : Bool)
    (rows : List ApptRow) : List Effect × List ApptRow :=
  (rows.flatMap (fun r => (sweep_row now has_audit_table update_fails r).1),
   rows.map (fun r => (sweep_row now has_audit_table update_fails r).2))

/-- Schema-drift flags: which optional tables/columns the live schema has,
as probed by `_table_exists` / `_column_exists`. -/
structure Schema where
  has_operatory_room_id : Bool
  has_predicted_duration_min : Bool
  has_scheduled_end_time : Bool
  has_audit_table : Bool
  has_visits_table : Bool
  has_vp_table : Bool
deriving Repr, DecidableEq

/-- One row of the `visits` table as the completed handler reads it. -/
structure VisitRow where
  id : Int
  appointment_id : Int
deriving Repr, DecidableEq

/-- The store state a handler reads: the three tables and the id the next
`INSERT INTO visits` would be assigned (`cur.lastrowid`). -/
structure Store where
  appointments : List ApptRow
  visits : List VisitRow
  visit_procedures : List VPRow
  next_visit_id : Int
deriving Repr, DecidableEq

/-- Python `a or b or 0` over two optional integer fields: the first truthy
(non-NULL, non-zero) value, else 0. -/
def first_truthy (a b : Option Int) : Int :=
  if a.getD 0 ≠ 0 then a.getD 0 else b.getD 0

/-- Python `a or b or default` over two optional string fields (empty
strings are falsy). -/
def first_truthy_str (a b : Option String) (dflt : String) : String :=
  if a.getD "" ≠ "" then a.getD ""
  else if b.getD "" ≠ "" then b.getD ""
  else dflt

/-- Payload of an `AppointmentCreated` event; each key may be absent, and
datetime-valued keys are pre-parsed (`none` = absent or unparseable). -/
structure CreatedPayload where
  appointmentId : Option Int
  patientId : Option Int
  doctorId : Option Int
  ptype : Option String
  operatoryId : Option Int
  operatoryRoomId : Option Int
  appointmentDateTime : Option Int
  scheduledDate : Option Int
  scheduledTime : Option Int
deriving Repr, DecidableEq

/-- Start-timestamp resolution in `on_appointment_created`: stored combined
timestamp, else stored date+time, else payload combined timestamp, else
payload date+time. -/
def resolved_start (appt : ApptRow) (p : CreatedPayload) : Option Int :=
  match fetch_appt_datetime appt with
  | some s => some s
  | none =>
    match p.appointmentDateTime with
    | some s => some s
    | none => combine_date_time p.scheduledDate p.scheduledTime

/-- The reminder loop of `on_appointment_created`: for lead times 24h and 2h,
when `start - lead` is still strictly in the future, a patient reminder and,
if a doctor is known, a parallel doctor notification, both scheduled at that
instant. -/
def reminder_notifs (now start_dt patient_id doctor_id appt_id : Int) : List Effect :=
  ([(24, "24h"), (2, "2h")] : List (Int × String)).flatMap (fun lead =>
    let when := start_dt - lead.1 * 60
    if when > now then
      Effect.notif patient_id ("Appointment Reminder (" ++ lead.2 ++ ")")
        "APPOINTMENT_REMINDER" appt_id (some when) ::
      (if doctor_id ≠ 0 then
        [Effect.notif doctor_id ("Upcoming Appointment (" ++ lead.2 ++ ")")
          "APPOINTMENT_REMINDER" appt_id (some when)]
      else [])
    else [])

/-- Source `on_appointment_created`.  No-op on a missing/zero appointment id
or an absent row; else resolves patient/doctor/type/room with payload
fallbacks, resolves the start, predicts the duration, persists predicted
fields, detects conflicts when start and doctor are known, writes the
CREATED audit entry, and finally emits the conflict notification and the
future-dated reminders. -/
def on_appointment_created (sch : Schema) (predict_query_fails : Bool) (now : Int)
    (p : CreatedPayload) (store : Store) : List Effect :=
  let appt_id := p.appointmentId.getD 0
  if appt_id = 0 then []
  else
    match store.appointments.find? (fun r => r.id == appt_id) with
    | none => []
    | some appt =>
      let patient_id := first_truthy appt.patient_id p.patientId
      let doctor_id := first_truthy appt.doctor_id p.doctorId
      let appt_type := first_truthy_str appt.type p.ptype "CONSULTATION"
      let op_chain := first_truthy appt.operatory_id (some (first_truthy p.operatoryId p.operatoryRoomId))
      let operatory_room_id : Option Int := if op_chain = 0 then none else some op_chain
      let start_dt := resolved_start appt p
      let dur_min := predict_duration_minutes sch.has_vp_table predict_query_fails
        store.visit_procedures appt_type
      let updates := update_predicted_fields sch.has_predicted_duration_min
        sch.has_scheduled_end_time appt_id dur_min start_dt
      let conflicts :=
        match start_dt with
        | some s =>
          if doctor_id ≠ 0 then
            detect_conflicts sch.has_operatory_room_id store.appointments appt_id doctor_id
              s (s + dur_min) operatory_room_id
          else []
        | none => []
      let audit := write_audit sch.has_audit_table appt_id "CREATED"
      let conflict_notif :=
        if conflicts ≠ [] ∧ doctor_id ≠ 0 then
          [Effect.notif doctor_id "Appointment Conflict Detected" "APPOINTMENT_CONFLICT"
            appt_id none]
        else []
      let reminders :=
        match start_dt with
        | some s => if patient_id ≠ 0 then reminder_notifs now s patient_id doctor_id appt_id else []
        | none => []
      updates ++ audit ++ conflict_notif ++ reminders

/-- Payload of an `AppointmentCompleted` event. -/
structure CompletedPayload where
  appointmentId : Option Int
  linkedCaseId : Option Int
deriving Repr, DecidableEq

/-- Source `on_appointment_completed`.  No-op on a missing/zero appointment
id or an absent row; else ensures a Visit (insert if none), seeds one Visit
Procedure row when the visit has none, writes the COMPLETED audit entry and
notifies the patient. -/
def on_appointment_completed (sch : Schema) (predict_query_fails : Bool)
    (p : CompletedPayload) (store : Store) : List Effect :=
  let appt_id := p.appointmentId.getD 0
  if appt_id = 0 then []
  else
    let lc0 : Option Int :=
      match p.linkedCaseId with
      | some x => if x = 0 then none else some x
      | none => none
    match store.appointments.find? (fun r => r.id == appt_id) with
    | none => []
    | some appt =>
      let patient_id := appt.patient_id.getD 0
      let doctor_id := appt.doctor_id.getD 0
      let appt_type := if appt.type.getD "" ≠ "" then appt.type.getD "" else "CONSULTATION"
      let linked_case_id : Option Int :=
        match lc0 with
        | some x => some x
        | none =>
          match appt.linked_case_id with
          | some y => if y ≠ 0 then some y else none
          | none => none
      let visitPair : List Effect × Option Int :=
        if sch.has_visits_table then
          match store.visits.find? (fun v => v.appointment_id == appt_id) with
          | some v => ([], some v.id)
          | none =>
            ([Effect.insertVisit appt_id patient_id doctor_id linked_case_id "OPEN"],
             some store.next_visit_id)
        else ([], none)
      let vpEffs : List Effect :=
        match visitPair.2 with
        | some vid =>
          if vid ≠ 0 ∧ sch.has_vp_table then
            match store.visit_procedures.find? (fun q => q.visit_id == vid) with
            | some _ => []
            | none =>
              [Effect.insertVP vid (norm_proc_type appt_type) 1
                (predict_duration_minutes sch.has_vp_table predict_query_fails
                  store.visit_procedures appt_type)]
          else []
        | none => []
      let audit := write_audit sch.has_audit_table appt_id "COMPLETED"
      let notifs :=
        if patient_id ≠ 0 then
          [Effect.notif patient_id "Appointment Completed" "APPOINTMENT_COMPLETED" appt_id none]
        else []
      visitPair.1 ++ vpEffs ++ audit ++ notifs

/-- Claim C4: the interval-overlap predicate holds iff `aStart < bEnd` and
`bStart < aEnd` (half-open semantics); it is symmetric in the two interval
arguments, and touching endpoints (10:00–10:30 vs 10:30–11:00, in minutes
600–630 vs 630–660) do not overlap while 10:00–10:31 vs 10:30–11:00 do. -/
theorem overlaps_half_open_and_symmetric :
    (∀ a b c d : Int, overlaps a b c d = true ↔ (a < d ∧ c < b)) ∧
    (∀ a b c d : Int, overlaps a b c d = overlaps c d a b) ∧
    overlaps 600 630 630 660 = false ∧ overlaps 600 631 630 660 = true := by
  refine ⟨fun a b c d => ?_, fun a b c d => ?_, by decide, by decide⟩
  · simp [overlaps]
  · simp only [overlaps]
    exact Bool.and_comm _ _

/-- Claim C8: duration prediction never aborts its caller — it is a total
function of the modelled storage behaviour — and any storage failure
(missing `visit_procedures` table, or a query failure anywhere in the `try`
block) is treated as insufficient data, falling back to the static default
table (30 for an unlisted type). -/
theorem predict_duration_swallows_storage_failure :
    ∀ (has_table query_fails : Bool) (vps : List VPRow) (t : String),
      query_fails = true ∨ has_table = false →
      predict_duration_minutes has_table query_fails vps t =
        DEFAULT_DURATIONS_MIN (norm_proc_type t) := by
  intro has_table query_fails vps t h
  rcases h with h | h <;> subst h <;> simp [predict_duration_minutes]

/-- Closed witness for `predict_duration_swallows_storage_failure` at a
concrete failing query. -/
theorem predict_duration_swallows_storage_failure_witness :
    predict_duration_minutes true true [] "FILLING" =
      DEFAULT_DURATIONS_MIN (norm_proc_type "FILLING") :=
  predict_duration_swallows_storage_failure true true [] "FILLING" (Or.inl rfl)

/-- Five `FILLING` history rows with durations 20, 25, 20, 30, 25. -/
def fillingSamples5 : List VPRow :=
  [⟨1, 1, "FILLING", some 20⟩, ⟨2, 1, "FILLING", some 25⟩, ⟨3, 2, "FILLING", some 20⟩,
   ⟨4, 2, "FILLING", some 30⟩, ⟨5, 3, "FILLING", some 25⟩]

/-- Four `FILLING` history rows with durations 20, 25, 20, 30. -/
def fillingSamples4 : List VPRow :=
  [⟨1, 1, "FILLING", some 20⟩, ⟨2, 1, "FILLING", some 25⟩, ⟨3, 2, "FILLING", some 20⟩,
   ⟨4, 2, "FILLING", some 30⟩]

/-- Claim C3: with working storage, at least five positive historical
samples of the normalized type give the median (integer-floor average of
the two middle values for even counts) clamped to [10, 240]; fewer give the
static default (30 when unlisted).  In particular `FILLING` samples
[20, 25, 20, 30, 25] give 25 and only four samples give the default 60. -/
theorem predict_duration_median_or_default :
    (∀ (vps : List VPRow) (t : String),
      (5 ≤ (positive_samples vps (norm_proc_type t)).length →
        predict_duration_minutes true false vps t =
          max 10 (min (median_of (positive_samples vps (norm_proc_type t))) 240)) ∧
      ((positive_samples vps (norm_proc_type t)).length < 5 →
        predict_duration_minutes true false vps t =
          DEFAULT_DURATIONS_MIN (norm_proc_type t))) ∧
    predict_duration_minutes true false fillingSamples5 "FILLING" = 25 ∧
    predict_duration_minutes true false fillingSamples4 "FILLING" = 60 := by
  refine ⟨fun vps t => ⟨fun h => ?_, fun h => ?_⟩, by decide, by decide⟩
  · simp [predict_duration_minutes, h]
  · simp [predict_duration_minutes, Nat.not_le.mpr h]

/-- Closed witness for `predict_duration_median_or_default` at the five
`FILLING` samples. -/
theorem predict_duration_median_or_default_witness :
    predict_duration_minutes true false fillingSamples5 "FILLING" =
      max 10 (min (median_of (positive_samples fillingSamples5 (norm_proc_type "FILLING"))) 240) :=
  (predict_duration_median_or_default.1 fillingSamples5 "FILLING").1 (by decide)

/-- Claim C7: when the payload's appointment id is absent or zero, or no
row matches it, both `on_appointment_created` and `on_appointment_completed`
return immediately with no side effect at all: no predicted-field update,
no audit entry, no visit or visit-procedure insert, no notification. -/
theorem handlers_no_op_without_appointment :
    ∀ (sch : Schema) (qf : Bool) (now : Int) (pc : CreatedPayload) (pd : CompletedPayload)
      (store : Store),
      (pc.appointmentId.getD 0 = 0 ∨
        store.appointments.find? (fun r => r.id == pc.appointmentId.getD 0) = none) →
      (pd.appointmentId.getD 0 = 0 ∨
        store.appointments.find? (fun r => r.id == pd.appointmentId.getD 0) = none) →
      on_appointment_created sch qf now pc store = [] ∧
      on_appointment_completed sch qf pd store = [] := by
  intro sch qf now pc pd store hc hd
  constructor
  · rcases hc with h | h
    · simp [on_appointment_created, h]
    · by_cases hz : pc.appointmentId.getD 0 = 0
      · simp [on_appointment_created, hz]
      · simp [on_appointment_created, hz, h]
  · rcases hd with h | h
    · simp [on_appointment_completed, h]
    · by_cases hz : pd.appointmentId.getD 0 = 0
      · simp [on_appointment_completed, hz]
      · simp [on_appointment_completed, hz, h]

/-- Closed witness for `handlers_no_op_without_appointment`: a payload
naming appointment 5 against a store holding only appointment 1. -/
theorem handlers_no_op_without_appointment_witness :
    on_appointment_created ⟨true, true, true, true, true, true⟩ false 0
      ⟨some 5, none, none, none, none, none, none, none, none⟩
      ⟨[⟨1, none, none, none, "SCHEDULED", none, none, none, none, none, none, none, none⟩],
        [], [], 1⟩ = [] ∧
    on_appointment_completed ⟨true, true, true, true, true, true⟩ false ⟨some 5, none⟩
      ⟨[⟨1, none, none, none, "SCHEDULED", none, none, none, none, none, none, none, none⟩],
        [], [], 1⟩ = [] :=
  handlers_no_op_without_appointment ⟨true, true, true, true, true, true⟩ false 0
    ⟨some 5, none, none, none, none, none, none, none, none⟩ ⟨some 5, none⟩
    ⟨[⟨1, none, none, none, "SCHEDULED", none, none, none, none, none, none, none, none⟩],
      [], [], 1⟩ (Or.inr (by decide)) (Or.inr (by decide))

/-- The two no-show notifications of the sweep's NO_SHOW branch: patient
(if known) then doctor (if known). -/
def sweep_no_show_notifs (r : ApptRow) : List Effect :=
  (if r.patient_id.getD 0 ≠ 0 then
    [Effect.notif (r.patient_id.getD 0) "Missed Appointment" "APPOINTMENT_NO_SHOW" r.id none]
  else []) ++
  (if r.doctor_id.getD 0 ≠ 0 then
    [Effect.notif (r.doctor_id.getD 0) "No-show Alert" "APPOINTMENT_NO_SHOW" r.id none]
  else [])

lemma write_audit_no_show (i : Int) :
    write_audit true i "NO_SHOW" = [Effect.auditLog i "NO_SHOW"] := by
  simp only [write_audit, if_true]
  rw [show (⟨"NO_SHOW".data.take 50⟩ : String) = "NO_SHOW" from by decide]

lemma sweep_row_terminal (now : Int) (ha uf : Bool) (r : ApptRow)
    (h : (⟨pyUpper r.status.data⟩ : String) ∈ TERMINAL_STATUSES) :
    sweep_row now ha uf r = ([], r) := by
  simp [sweep_row, h]

lemma sweep_row_no_start (now : Int) (ha uf : Bool) (r : ApptRow)
    (h : (⟨pyUpper r.status.data⟩ : String) ∉ TERMINAL_STATUSES)
    (hf : fetch_appt_datetime r = none) :
    sweep_row now ha uf r = ([], r) := by
  simp [sweep_row, h, hf]

lemma sweep_row_no_show_ok (now : Int) (ha : Bool) (r : ApptRow) (s : Int)
    (h : (⟨pyUpper r.status.data⟩ : String) ∉ TERMINAL_STATUSES)
    (hs : fetch_appt_datetime r = some s) (h45 : now > s + GRACE_MIN_NO_SHOW) :
    sweep_row now ha false r =
      (Effect.statusWrite r.id "NO_SHOW" :: write_audit ha r.id "NO_SHOW" ++
        sweep_no_show_notifs r, { r with status := "NO_SHOW" }) := by
  simp [sweep_row, h, hs, h45, sweep_no_show_notifs]

lemma sweep_row_no_show_write_fails (now : Int) (ha : Bool) (r : ApptRow) (s : Int)
    (h : (⟨pyUpper r.status.data⟩ : String) ∉ TERMINAL_STATUSES)
    (hs : fetch_appt_datetime r = some s) (h45 : now > s + GRACE_MIN_NO_SHOW) :
    sweep_row now ha true r = (sweep_no_show_notifs r, r) := by
  simp [sweep_row, h, hs, h45, sweep_no_show_notifs]

lemma sweep_row_delay (now : Int) (ha uf : Bool) (r : ApptRow) (s : Int)
    (h : (⟨pyUpper r.status.data⟩ : String) ∉ TERMINAL_STATUSES)
    (hs : fetch_appt_datetime r = some s) (h45 : ¬ now > s + GRACE_MIN_NO_SHOW)
    (h10 : now > s + GRACE_MIN_DELAY) :
    sweep_row now ha uf r =
      ((if r.doctor_id.getD 0 ≠ 0 then
        [Effect.notif (r.doctor_id.getD 0) "Appointment Running Late" "APPOINTMENT_DELAY"
          r.id none]
      else []), r) := by
  simp [sweep_row, h, hs, h45, h10]

lemma sweep_row_idle (now : Int) (ha uf : Bool) (r : ApptRow) (s : Int)
    (h : (⟨pyUpper r.status.data⟩ : String) ∉ TERMINAL_STATUSES)
    (hs : fetch_appt_datetime r = some s) (h45 : ¬ now > s + GRACE_MIN_NO_SHOW)
    (h10 : ¬ now > s + GRACE_MIN_DELAY) :
    sweep_row now ha uf r = ([], r) := by
  simp [sweep_row, h, hs, h45, h10]

/-- Tests whether an effect is the doctor-facing running-late alert. -/
def is_delay_alert : Effect → Bool
  | .notif _ _ t _ _ => t == "APPOINTMENT_DELAY"
  | _ => false

/-- Claim C1: for every row the sweep processes (with the audit table
present and the NO_SHOW write succeeding; the failing write is claim C10's
subject): a row whose (upper-cased) status is terminal is skipped with no
effect at all; otherwise, with an unresolvable start nothing happens; with
start `s` and `now > s + 45` the status is set to NO_SHOW, a NO_SHOW audit
entry is written, the patient (if known) and doctor (if known) are
notified, and no delay alert is emitted for the row; with
`now > s + 10` (and not past 45) only the running-late alert to the doctor
is emitted and the row is unchanged; otherwise nothing happens. -/
theorem sweep_row_state_machine :
    ∀ (now : Int) (r : ApptRow),
      ((⟨pyUpper r.status.data⟩ : String) ∈ TERMINAL_STATUSES →
        sweep_row now true false r = ([], r)) ∧
      ((⟨pyUpper r.status.data⟩ : String) ∉ TERMINAL_STATUSES →
        (fetch_appt_datetime r = none → sweep_row now true false r = ([], r)) ∧
        (∀ s, fetch_appt_datetime r = some s →
          (now > s + 45 →
            sweep_row now true false r =
              ([Effect.statusWrite r.id "NO_SHOW", Effect.auditLog r.id "NO_SHOW"] ++
                sweep_no_show_notifs r, { r with status := "NO_SHOW" }) ∧
            (sweep_row now true false r).1.filter is_delay_alert = []) ∧
          (¬ now > s + 45 → now > s + 10 →
            sweep_row now true false r =
              ((if r.doctor_id.getD 0 ≠ 0 then
                [Effect.notif (r.doctor_id.getD 0) "Appointment Running Late"
                  "APPOINTMENT_DELAY" r.id none]
              else []), r)) ∧
          (¬ now > s + 45 → ¬ now > s + 10 → sweep_row now true false r = ([], r)))) := by
  intro now r
  refine ⟨fun h => sweep_row_terminal now true false r h, fun h => ⟨fun hf => sweep_row_no_start now true false r h hf, fun s hs => ⟨fun h45 => ⟨?_, ?_⟩, fun h45 h10 => sweep_row_delay now true false r s h hs h45 h10, fun h45 h10 => sweep_row_idle now true false r s h hs h45 h10⟩⟩⟩
  · rw [sweep_row_no_show_ok now true r s h hs h45, write_audit_no_show]
  · rw [sweep_row_no_show_ok now true r s h hs h45]
    simp only [write_audit_no_show, sweep_no_show_notifs]
    by_cases hp : r.patient_id.getD 0 ≠ 0 <;> by_cases hd : r.doctor_id.getD 0 ≠ 0 <;>
      simp [hp, hd, is_delay_alert]

/-- Closed witness for `sweep_row_state_machine`: a SCHEDULED appointment
at minute 540 (09:00) swept at minute 631 (10:31). -/
theorem sweep_row_state_machine_witness :
    sweep_row 631 true false
      ⟨1, some 7, some 9, none, "SCHEDULED", none, none, none, none, none, none, some 540, none⟩ =
      ([Effect.statusWrite 1 "NO_SHOW", Effect.auditLog 1 "NO_SHOW"] ++
        sweep_no_show_notifs
          ⟨1, some 7, some 9, none, "SCHEDULED", none, none, none, none, none, none, some 540, none⟩,
       { (⟨1, some 7, some 9, none, "SCHEDULED", none, none, none, none, none, none, some 540,
          none⟩ : ApptRow) with status := "NO_SHOW" }) :=
  (((sweep_row_state_machine 631
      ⟨1, some 7, some 9, none, "SCHEDULED", none, none, none, none, none, none, some 540, none⟩).2
    (by decide) |>.2 540 (by decide)).1 (by decide)).1

/-- A non-terminal appointment (id 1, patient 7, doctor 9) scheduled at
minute 540 of day 0, i.e. 09:00. -/
def appt0900 : ApptRow :=
  ⟨1, some 7, some 9, none, "SCHEDULED", none, none, none, none, none, none, some 540, none⟩

/-- Counterexample to claim C5 as stated: at now = 09:50 (minute 590) the
sweep does NOT produce a delay-alert-only outcome for the 09:00 appointment
— since 50 minutes exceed the 45-minute grace it transitions the row to
NO_SHOW, writes the audit entry and emits the two no-show notifications,
and emits no delay alert. -/
theorem sweep_row_at_0950_counterexample :
    sweep_row 590 true false appt0900 =
      ([Effect.statusWrite 1 "NO_SHOW", Effect.auditLog 1 "NO_SHOW",
        Effect.notif 7 "Missed Appointment" "APPOINTMENT_NO_SHOW" 1 none,
        Effect.notif 9 "No-show Alert" "APPOINTMENT_NO_SHOW" 1 none],
       { appt0900 with status := "NO_SHOW" }) ∧
    (sweep_row 590 true false appt0900).2.status = "NO_SHOW" := by
  constructor
  · rw [sweep_row_no_show_ok 590 true appt0900 540 (by decide) (by decide) (by decide),
      write_audit_no_show]
    rfl
  · rw [sweep_row_no_show_ok 590 true appt0900 540 (by decide) (by decide) (by decide)]

/-- Claim C5 as amended: for the 09:00 appointment, now = 09:30 gives the
delay alert to the doctor only with the row unchanged; now = 09:05 gives no
action; any now at or after 09:46 (so in particular 09:50 and 10:31) gives
the NO_SHOW transition with its audit entry and the patient and doctor
notifications; and the transitioned row is skipped by every later sweep
pass. -/
theorem sweep_row_times_amended :
    sweep_row 570 true false appt0900 =
      ([Effect.notif 9 "Appointment Running Late" "APPOINTMENT_DELAY" 1 none], appt0900) ∧
    sweep_row 545 true false appt0900 = ([], appt0900) ∧
    (∀ now, 586 ≤ now →
      sweep_row now true false appt0900 =
        ([Effect.statusWrite 1 "NO_SHOW", Effect.auditLog 1 "NO_SHOW",
          Effect.notif 7 "Missed Appointment" "APPOINTMENT_NO_SHOW" 1 none,
          Effect.notif 9 "No-show Alert" "APPOINTMENT_NO_SHOW" 1 none],
         { appt0900 with status := "NO_SHOW" })) ∧
    (∀ now2, sweep_row now2 true false { appt0900 with status := "NO_SHOW" } =
      ([], { appt0900 with status := "NO_SHOW" })) := by
  refine ⟨?_, ?_, fun now h => ?_, fun now2 => ?_⟩
  · rw [sweep_row_delay 570 true false appt0900 540 (by decide) (by decide) (by decide)
      (by decide)]
    rfl
  · exact sweep_row_idle 545 true false appt0900 540 (by decide) (by decide) (by decide)
      (by decide)
  · rw [sweep_row_no_show_ok now true appt0900 540 (by decide) (by decide)
      (by simp only [GRACE_MIN_NO_SHOW]; omega), write_audit_no_show]
    rfl
  · exact sweep_row_terminal now2 true false _ (by decide)

/-- Closed witness for `sweep_row_times_amended` at now = 10:31
(minute 631). -/
theorem sweep_row_times_amended_witness :
    sweep_row 631 true false appt0900 =
      ([Effect.statusWrite 1 "NO_SHOW", Effect.auditLog 1 "NO_SHOW",
        Effect.notif 7 "Missed Appointment" "APPOINTMENT_NO_SHOW" 1 none,
        Effect.notif 9 "No-show Alert" "APPOINTMENT_NO_SHOW" 1 none],
       { appt0900 with status := "NO_SHOW" }) :=
  sweep_row_times_amended.2.2.1 631 (by decide)

/-- Claim C10: when the `try` block around the NO_SHOW `UPDATE` and its
audit write raises, the sweep swallows the exception and still emits the
"Missed Appointment" patient notification and "No-show Alert" doctor
notification in the same pass, leaving the row's status unchanged — so
while the write keeps failing, every later tick past the threshold emits
the same notifications for the same row again. -/
theorem sweep_row_write_failure_still_notifies :
    ∀ (now : Int) (ha : Bool) (r : ApptRow) (s : Int),
      (⟨pyUpper r.status.data⟩ : String) ∉ TERMINAL_STATUSES →
      fetch_appt_datetime r = some s →
      now > s + 45 →
      sweep_row now ha true r = (sweep_no_show_notifs r, r) ∧
      (∀ e ∈ (sweep_row now ha true r).1,
        e ≠ Effect.statusWrite r.id "NO_SHOW" ∧ e ≠ Effect.auditLog r.id "NO_SHOW") ∧
      (∀ now2, now2 > s + 45 →
        sweep_row now2 ha true ((sweep_row now ha true r).2) =
          (sweep_no_show_notifs r, r)) := by
  intro now ha r s h hs h45
  have h1 := sweep_row_no_show_write_fails now ha r s h hs h45
  refine ⟨h1, fun e he => ?_, fun now2 h2 => ?_⟩
  · rw [h1] at he
    simp only [sweep_no_show_notifs, List.mem_append] at he
    have hne : ∀ (u : Int) (t ty : String) (i : Int) (sa : Option Int),
        Effect.notif u t ty i sa ≠ Effect.statusWrite r.id "NO_SHOW" ∧
        Effect.notif u t ty i sa ≠ Effect.auditLog r.id "NO_SHOW" :=
      fun u t ty i sa => ⟨fun hh => Effect.noConfusion hh, fun hh => Effect.noConfusion hh⟩
    rcases he with he | he
    · by_cases hp : r.patient_id.getD 0 ≠ 0
      · rw [if_pos hp] at he
        simp only [List.mem_singleton] at he
        subst he
        exact hne _ _ _ _ _
      · rw [if_neg hp] at he
        exact absurd he (List.not_mem_nil e)
    · by_cases hd : r.doctor_id.getD 0 ≠ 0
      · rw [if_pos hd] at he
        simp only [List.mem_singleton] at he
        subst he
        exact hne _ _ _ _ _
      · rw [if_neg hd] at he
        exact absurd he (List.not_mem_nil e)
  · rw [h1]
    exact sweep_row_no_show_write_fails now2 ha r s h hs h2

/-- Closed witness for `sweep_row_write_failure_still_notifies` on the
09:00 appointment swept at 10:31 with a failing write. -/
theorem sweep_row_write_failure_still_notifies_witness :
    sweep_row 631 true true appt0900 = (sweep_no_show_notifs appt0900, appt0900) :=
  (sweep_row_write_failure_still_notifies 631 true appt0900 540 (by decide) (by decide)
    (by decide)).1

/-- Tests whether an effect is a scheduled reminder notification (type tag
`APPOINTMENT_REMINDER`). -/
def is_reminder : Effect → Bool
  | .notif _ _ t _ _ => t == "APPOINTMENT_REMINDER"
  | _ => false

/-- Claim-side description of C6's reminder schedule: for lead times of 24
and 2 hours, a patient reminder scheduled at start minus the lead exactly
when that instant is strictly in the future, each followed by a parallel
doctor notification when a doctor is known; nothing without a known start
or patient. -/
def claimed_reminders (now : Int) (start_dt : Option Int)
    (patient_id doctor_id appt_id : Int) : List Effect :=
  match start_dt with
  | none => []
  | some s =>
    if patient_id = 0 then []
    else
      (if s - 24 * 60 > now then
        Effect.notif patient_id "Appointment Reminder (24h)" "APPOINTMENT_REMINDER" appt_id
          (some (s - 24 * 60)) ::
        (if doctor_id ≠ 0 then
          [Effect.notif doctor_id "Upcoming Appointment (24h)" "APPOINTMENT_REMINDER" appt_id
            (some (s - 24 * 60))]
        else [])
      else []) ++
      (if s - 2 * 60 > now then
        Effect.notif patient_id "Appointment Reminder (2h)" "APPOINTMENT_REMINDER" appt_id
          (some (s - 2 * 60)) ::
        (if doctor_id ≠ 0 then
          [Effect.notif doctor_id "Upcoming Appointment (2h)" "APPOINTMENT_REMINDER" appt_id
            (some (s - 2 * 60))]
        else [])
      else [])

lemma reminder_notifs_unfold (now s pid did i : Int) :
    reminder_notifs now s pid did i =
      (if s - 24 * 60 > now then
        Effect.notif pid "Appointment Reminder (24h)" "APPOINTMENT_REMINDER" i
          (some (s - 24 * 60)) ::
        (if did ≠ 0 then
          [Effect.notif did "Upcoming Appointment (24h)" "APPOINTMENT_REMINDER" i
            (some (s - 24 * 60))]
        else [])
      else []) ++
      (if s - 2 * 60 > now then
        Effect.notif pid "Appointment Reminder (2h)" "APPOINTMENT_REMINDER" i
          (some (s - 2 * 60)) ::
        (if did ≠ 0 then
          [Effect.notif did "Upcoming Appointment (2h)" "APPOINTMENT_REMINDER" i
            (some (s - 2 * 60))]
        else [])
      else []) := by
  simp [reminder_notifs]

lemma filter_is_reminder_update (hp he : Bool) (i d : Int) (s : Option Int) :
    (update_predicted_fields hp he i d s).filter is_reminder = [] := by
  unfold update_predicted_fields
  cases s with
  | none => rfl
  | some v => split <;> simp [is_reminder]

lemma filter_is_reminder_audit (ha : Bool) (i : Int) (a : String) :
    (write_audit ha i a).filter is_reminder = [] := by
  unfold write_audit
  split <;> simp [is_reminder]

lemma filter_is_reminder_conflict_notif (c : Prop) [Decidable c] (d i : Int) :
    (if c then
      [Effect.notif d "Appointment Conflict Detected" "APPOINTMENT_CONFLICT" i none]
    else []).filter is_reminder = [] := by
  split <;> simp [is_reminder]

lemma filter_is_reminder_reminders (now s pid did i : Int) :
    (reminder_notifs now s pid did i).filter is_reminder = reminder_notifs now s pid did i := by
  rw [reminder_notifs_unfold, List.filter_append]
  congr 1 <;> split <;> by_cases hd : did ≠ 0 <;> simp [hd, is_reminder]

/-- Claim C6: in the AppointmentCreated handler, when the appointment row
is found, the reminder notifications it emits (type `APPOINTMENT_REMINDER`)
are exactly the claim's schedule: for each lead time of 24 and 2 hours, a
patient reminder at start minus the lead iff that instant is strictly
future at call time, each with a parallel doctor notification when a doctor
is known, and none at all when the start or the patient is unknown. -/
theorem created_reminders_iff_future :
    ∀ (sch : Schema) (qf : Bool) (now : Int) (p : CreatedPayload) (store : Store)
      (appt : ApptRow),
      p.appointmentId.getD 0 ≠ 0 →
      store.appointments.find? (fun r => r.id == p.appointmentId.getD 0) = some appt →
      (on_appointment_created sch qf now p store).filter is_reminder =
        claimed_reminders now (resolved_start appt p)
          (first_truthy appt.patient_id p.patientId)
          (first_truthy appt.doctor_id p.doctorId)
          (p.appointmentId.getD 0) := by
  intro sch qf now p store appt hz hfind
  simp only [on_appointment_created, if_neg hz, hfind, List.filter_append,
    filter_is_reminder_update, filter_is_reminder_audit, filter_is_reminder_conflict_notif,
    List.nil_append]
  cases hstart : resolved_start appt p with
  | none => simp [claimed_reminders]
  | some s =>
    dsimp only
    by_cases hp : first_truthy appt.patient_id p.patientId = 0
    · simp [hp, claimed_reminders]
    · rw [if_pos hp, filter_is_reminder_reminders, reminder_notifs_unfold]
      simp only [claimed_reminders]
      rw [if_neg hp]

/-- Closed witness for `created_reminders_iff_future`: appointment 1 with
patient 7, doctor 9, starting at minute 2000, handled at now = 0. -/
theorem created_reminders_iff_future_witness :
    (on_appointment_created ⟨false, false, false, false, false, false⟩ false 0
      ⟨some 1, none, none, none, none, none, none, none, none⟩
      ⟨[⟨1, some 7, some 9, none, "SCHEDULED", none, none, none, none, none, none, some 2000,
        none⟩], [], [], 1⟩).filter is_reminder =
      claimed_reminders 0
        (resolved_start
          ⟨1, some 7, some 9, none, "SCHEDULED", none, none, none, none, none, none, some 2000,
            none⟩
          ⟨some 1, none, none, none, none, none, none, none, none⟩)
        (first_truthy (some 7) none) (first_truthy (some 9) none) 1 :=
  created_reminders_iff_future ⟨false, false, false, false, false, false⟩ false 0
    ⟨some 1, none, none, none, none, none, none, none, none⟩
    ⟨[⟨1, some 7, some 9, none, "SCHEDULED", none, none, none, none, none, none, some 2000,
      none⟩], [], [], 1⟩
    ⟨1, some 7, some 9, none, "SCHEDULED", none, none, none, none, none, none, some 2000, none⟩
    (by decide) (by decide)

/-- Tests whether an effect mutates the `appointments` table (the predicted
fields `UPDATE` or the sweep's status `UPDATE`). -/
def is_appt_mutation : Effect → Bool
  | .updateAppt _ _ _ => true
  | .statusWrite _ _ => true
  | _ => false

/-- Appointment row 1 with no date, time or combined timestamp: its start
cannot be resolved. -/
def apptNoStart : ApptRow :=
  ⟨1, none, none, none, "SCHEDULED", none, none, none, none, none, none, none, none⟩

/-- Counterexample to claim C9 as stated: for appointment 1 (row present,
schema with the predicted-duration column) whose start timestamp cannot be
resolved from row or payload, `on_appointment_created` performs no
appointment-row update at all — it emits no effect whatsoever — although
the claim asserts the predicted duration is persisted regardless of start
resolution (`_update_predicted_fields` returns early without a start). -/
theorem created_no_update_without_start :
    (⟨[apptNoStart], [], [], 1⟩ : Store).appointments.find? (fun r => r.id == 1) =
      some apptNoStart ∧
    (⟨false, true, false, false, false, false⟩ : Schema).has_predicted_duration_min = true ∧
    on_appointment_created ⟨false, true, false, false, false, false⟩ false 0
      ⟨some 1, none, none, none, none, none, none, none, none⟩
      ⟨[apptNoStart], [], [], 1⟩ = [] := by
  refine ⟨rfl, rfl, ?_⟩
  decide

lemma update_predicted_fields_no_start (hp he : Bool) (i d : Int) :
    update_predicted_fields hp he i d none = [] := rfl

lemma filter_mutation_update_pred_true (he : Bool) (i d s : Int) :
    (update_predicted_fields true he i d (some s)).filter is_appt_mutation =
      [Effect.updateAppt i (some d) (if he then some ((s + d) % 1440) else none)] := by
  simp [update_predicted_fields, is_appt_mutation]

lemma filter_mutation_audit (ha : Bool) (i : Int) (a : String) :
    (write_audit ha i a).filter is_appt_mutation = [] := by
  unfold write_audit
  split <;> simp [is_appt_mutation]

lemma filter_mutation_conflict_notif (c : Prop) [Decidable c] (d i : Int) :
    (if c then
      [Effect.notif d "Appointment Conflict Detected" "APPOINTMENT_CONFLICT" i none]
    else []).filter is_appt_mutation = [] := by
  split <;> simp [is_appt_mutation]

lemma filter_mutation_reminders (now s pid did i : Int) :
    (reminder_notifs now s pid did i).filter is_appt_mutation = [] := by
  rw [reminder_notifs_unfold, List.filter_append]
  refine List.append_eq_nil.mpr ⟨?_, ?_⟩ <;> split <;> by_cases hd : did ≠ 0 <;>
    simp [hd, is_appt_mutation]

lemma filter_mutation_reminder_if (c : Prop) [Decidable c] (now s pid did i : Int) :
    (if c then reminder_notifs now s pid did i else []).filter is_appt_mutation = [] := by
  split
  · exact filter_mutation_reminders now s pid did i
  · rfl

/-- Claim C9 as amended: for every AppointmentCreated event whose row exists
and whose schema has the predicted-duration column, IF the start timestamp
is resolvable the handler persists the predicted duration (and, when the
schema supports it, the derived end time-of-day) and this is its only
appointment-row mutation; when the start cannot be resolved it performs no
appointment-row mutation at all. -/
theorem created_predicted_persistence_amended :
    ∀ (sch : Schema) (qf : Bool) (now : Int) (p : CreatedPayload) (store : Store)
      (appt : ApptRow),
      p.appointmentId.getD 0 ≠ 0 →
      store.appointments.find? (fun r => r.id == p.appointmentId.getD 0) = some appt →
      sch.has_predicted_duration_min = true →
      (∀ s, resolved_start appt p = some s →
        (on_appointment_created sch qf now p store).filter is_appt_mutation =
          [Effect.updateAppt (p.appointmentId.getD 0)
            (some (predict_duration_minutes sch.has_vp_table qf store.visit_procedures
              (first_truthy_str appt.type p.ptype "CONSULTATION")))
            (if sch.has_scheduled_end_time then
              some ((s + predict_duration_minutes sch.has_vp_table qf store.visit_procedures
                (first_truthy_str appt.type p.ptype "CONSULTATION")) % 1440)
            else none)]) ∧
      (resolved_start appt p = none →
        (on_appointment_created sch qf now p store).filter is_appt_mutation = []) := by
  intro sch qf now p store appt hz hfind hpred
  constructor
  · intro s hstart
    simp only [on_appointment_created, if_neg hz, hfind, hstart, hpred]
    simp only [List.filter_append, filter_mutation_audit, filter_mutation_conflict_notif,
      filter_mutation_reminder_if, filter_mutation_update_pred_true, List.append_nil,
      List.nil_append]
  · intro hstart
    simp only [on_appointment_created, if_neg hz, hfind, hstart, hpred]
    simp only [update_predicted_fields_no_start, List.filter_append, filter_mutation_audit,
      filter_mutation_conflict_notif, List.append_nil, List.nil_append, List.filter_nil]

/-- Closed witness for `created_predicted_persistence_amended`: appointment
1 starting at minute 2000, schema with both predicted columns. -/
theorem created_predicted_persistence_amended_witness :
    (on_appointment_created ⟨false, true, true, false, false, false⟩ false 0
      ⟨some 1, none, none, none, none, none, none, none, none⟩
      ⟨[⟨1, some 7, some 9, none, "SCHEDULED", none, none, none, none, none, none, some 2000,
        none⟩], [], [], 1⟩).filter is_appt_mutation =
      [Effect.updateAppt 1
        (some (predict_duration_minutes false false []
          (first_truthy_str (none : Option String) (none : Option String) "CONSULTATION")))
        (if (true : Bool) then
          some ((2000 + predict_duration_minutes false false []
            (first_truthy_str (none : Option String) (none : Option String) "CONSULTATION")) %
              1440)
        else none)] :=
  ((created_predicted_persistence_amended ⟨false, true, true, false, false, false⟩ false 0
      ⟨some 1, none, none, none, none, none, none, none, none⟩
      ⟨[⟨1, some 7, some 9, none, "SCHEDULED", none, none, none, none, none, none, some 2000,
        none⟩], [], [], 1⟩
      ⟨1, some 7, some 9, none, "SCHEDULED", none, none, none, none, none, none, some 2000, none⟩
      (by decide) (by decide) rfl).1) 2000 (by decide)

lemma contains_iff_mem_str {l : List String} {a : String} : l.contains a = true ↔ a ∈ l :=
  List.contains_iff_exists_mem_beq.trans (by simp)

/-- Claim-side end derivation of C2: the explicit end time if derivable,
else the row's start plus its predicted duration or a 30-minute default. -/
def claimed_row_end (r : ApptRow) (s : Int) : Int :=
  match combine_date_time r.scheduled_date r.scheduled_end_time with
  | some e => e
  | none =>
    s + (if r.predicted_duration_min.getD 0 = 0 then 30 else r.predicted_duration_min.getD 0)

lemma fetch_end_effective (r : ApptRow) (s : Int) :
    fetch_appt_end_datetime r (some s) (row_effective_duration r) =
      some (claimed_row_end r s) := by
  cases h : combine_date_time r.scheduled_date r.scheduled_end_time <;>
    simp [fetch_appt_end_datetime, claimed_row_end, row_effective_duration, h]

lemma scan_rows_mem (rows : List ApptRow) (kind : String) (a b : Int) (c : Conflict) :
    c ∈ scan_rows rows kind a b ↔
      ∃ r ∈ rows, ∃ s, fetch_appt_datetime r = some s ∧
        overlaps a b s (claimed_row_end r s) = true ∧ c = ⟨kind, r.id, s, r.status⟩ := by
  simp only [scan_rows, List.mem_filterMap]
  constructor
  · rintro ⟨r, hr, hf⟩
    cases hs : fetch_appt_datetime r with
    | none => rw [hs] at hf; exact absurd hf (by simp)
    | some s =>
      rw [hs] at hf
      simp only [fetch_end_effective] at hf
      by_cases hov : overlaps a b s (claimed_row_end r s) = true
      · rw [if_pos hov] at hf
        exact ⟨r, hr, s, hs, hov, (Option.some.injEq _ _).mp hf.symm⟩
      · rw [if_neg hov] at hf
        exact absurd hf (by simp)
  · rintro ⟨r, hr, s, hs, hov, rfl⟩
    refine ⟨r, hr, ?_⟩
    rw [hs]
    simp only [fetch_end_effective, if_pos hov]

/-- Claim C2: `detect_conflicts` returns a conflict entry exactly for the
appointment rows the claim describes — another non-terminal row sharing the
doctor (tagged `DOCTOR`) or, when a non-zero room was passed and the schema
has the room column, sharing the room (room-kind entries carry the source
tag `OPERATORY`), whose start is derivable (combined timestamp preferred,
else date plus start time; underivable rows skipped), whose end is the
explicit end time if derivable else start plus predicted-duration-or-30,
and whose interval overlaps the candidate half-open interval. -/
theorem detect_conflicts_exactly :
    ∀ (has_operatory : Bool) (rows : List ApptRow) (appt_id doctor_id start_dt end_dt : Int)
      (roomId : Option Int) (c : Conflict),
      c ∈ detect_conflicts has_operatory rows appt_id doctor_id start_dt end_dt roomId ↔
        ∃ r ∈ rows, r.id ≠ appt_id ∧ r.status ∉ TERMINAL_STATUSES ∧
          ∃ s, fetch_appt_datetime r = some s ∧
            overlaps start_dt end_dt s (claimed_row_end r s) = true ∧
            ((r.doctor_id = some doctor_id ∧ c = ⟨"DOCTOR", r.id, s, r.status⟩) ∨
             (has_operatory = true ∧ roomId.getD 0 ≠ 0 ∧ r.operatory_room_id = roomId ∧
               c = ⟨"OPERATORY", r.id, s, r.status⟩)) := by
  intro hasOp rows appt_id doctor_id a b roomId c
  unfold detect_conflicts
  constructor
  · intro hc
    by_cases hcond : (hasOp && decide (roomId.getD 0 ≠ 0)) = true
    · rw [if_pos hcond] at hc
      simp only [Bool.and_eq_true, decide_eq_true_eq] at hcond
      obtain ⟨hOp, hRoom⟩ := hcond
      rcases List.mem_append.mp hc with hmem | hmem
      · rcases (scan_rows_mem _ _ _ _ _).mp hmem with ⟨r, hr, s, hs, hov, rfl⟩
        rcases List.mem_filter.mp hr with ⟨hrow, hpred⟩
        simp only [Bool.and_eq_true, beq_iff_eq, bne_iff_ne, Bool.not_eq_true'] at hpred
        obtain ⟨⟨hdoc, hid⟩, hterm⟩ := hpred
        have hterm2 : r.status ∉ TERMINAL_STATUSES :=
          fun hm => by rw [contains_iff_mem_str.mpr hm] at hterm; cases hterm
        exact ⟨r, hrow, hid, hterm2, s, hs, hov, Or.inl ⟨hdoc, rfl⟩⟩
      · rcases (scan_rows_mem _ _ _ _ _).mp hmem with ⟨r, hr, s, hs, hov, rfl⟩
        rcases List.mem_filter.mp hr with ⟨hrow, hpred⟩
        simp only [Bool.and_eq_true, beq_iff_eq, bne_iff_ne, Bool.not_eq_true'] at hpred
        obtain ⟨⟨hopr, hid⟩, hterm⟩ := hpred
        have hterm2 : r.status ∉ TERMINAL_STATUSES :=
          fun hm => by rw [contains_iff_mem_str.mpr hm] at hterm; cases hterm
        exact ⟨r, hrow, hid, hterm2, s, hs, hov, Or.inr ⟨hOp, hRoom, hopr, rfl⟩⟩
    · rw [if_neg hcond] at hc
      rcases (scan_rows_mem _ _ _ _ _).mp hc with ⟨r, hr, s, hs, hov, rfl⟩
      rcases List.mem_filter.mp hr with ⟨hrow, hpred⟩
      simp only [Bool.and_eq_true, beq_iff_eq, bne_iff_ne, Bool.not_eq_true'] at hpred
      obtain ⟨⟨hdoc, hid⟩, hterm⟩ := hpred
      have hterm2 : r.status ∉ TERMINAL_STATUSES :=
        fun hm => by rw [contains_iff_mem_str.mpr hm] at hterm; cases hterm
      exact ⟨r, hrow, hid, hterm2, s, hs, hov, Or.inl ⟨hdoc, rfl⟩⟩
  · rintro ⟨r, hrow, hid, hterm, s, hs, hov, hdisj⟩
    rcases hdisj with ⟨hdoc, rfl⟩ | ⟨hOp, hRoom, hopr, rfl⟩
    · have hmem : (⟨"DOCTOR", r.id, s, r.status⟩ : Conflict) ∈
          scan_rows (rows.filter (fun r2 =>
            r2.doctor_id == some doctor_id && r2.id != appt_id &&
              !(TERMINAL_STATUSES.contains r2.status))) "DOCTOR" a b :=
        (scan_rows_mem _ _ _ _ _).mpr
          ⟨r, List.mem_filter.mpr ⟨hrow, by simp [hdoc, hid, hterm]⟩, s, hs, hov, rfl⟩
      by_cases hcond : (hasOp && decide (roomId.getD 0 ≠ 0)) = true
      · rw [if_pos hcond]
        exact List.mem_append_left _ hmem
      · rw [if_neg hcond]
        exact hmem
    · have hcond : (hasOp && decide (roomId.getD 0 ≠ 0)) = true := by
        simp [hOp, hRoom]
      rw [if_pos hcond]
      refine List.mem_append_right _ ((scan_rows_mem _ _ _ _ _).mpr
        ⟨r, List.mem_filter.mpr ⟨hrow, by simp [hopr, hid, hterm]⟩, s, hs, hov, rfl⟩)

/-- Closed witness for `detect_conflicts_exactly`: doctor 4's appointment 2
at minute 630 (predicted 45 min) conflicts with a new 600–660 booking. -/
theorem detect_conflicts_exactly_witness :
    (⟨"DOCTOR", 2, 630, "SCHEDULED"⟩ : Conflict) ∈
      detect_conflicts false
        [⟨2, none, some 4, none, "SCHEDULED", none, none, none, none, none, none, some 630,
          some 45⟩] 1 4 600 660 none :=
  (detect_conflicts_exactly false
    [⟨2, none, some 4, none, "SCHEDULED", none, none, none, none, none, none, some 630,
      some 45⟩] 1 4 600 660 none ⟨"DOCTOR", 2, 630, "SCHEDULED"⟩).mpr
    ⟨⟨2, none, some 4, none, "SCHEDULED", none, none, none, none, none, none, some 630,
      some 45⟩, by decide, by decide, by decide, 630, by decide, by decide,
      Or.inl ⟨by decide, by decide⟩⟩
